import Mathlib

/-!
Shallow embedding of `my_keyboarded_robot.py` (class `GoPiGo3WithKeyboard`),
a keyboard-driven controller for the GoPiGo3 robot.

Modelling conventions:
* Calls on the `easygopigo3` actuator object are reified as values of
  `ActCall`; a handler is a pure function returning the mutated toggle
  state, the ordered list of actuator calls it issues, and the string
  classification it returns.
* Python numeric literals (ints and floats such as `13.5`, `1.141`) are
  modelled as exact rationals `ℚ`; `sleep t` is reified as a `Step.wait t`.
* The long straight-line bodies of `_gopigo3_command_activatedance` and
  `_gopigo3_command_deliveraltoids` are transcribed statement-by-statement
  into scripts (`danceScript`, `altoidsCalls`); Python's sequential
  execution of such a body, and the propagation of an exception raised by
  an actuator call (there is no try/except in either body), are embedded
  as the runner functions `scriptCalls`/`scriptSleep`/`playFail` below.
* Leading underscores of Python method names are dropped
  (`_gopigo3_command_blinkers` becomes `gopigo3_command_blinkers`).
-/

/-- One call on the `easygopigo3` actuator object, with its arguments. -/
inductive ActCall where
  | forward
  | backward
  | left
  | right
  | stop
  | steer (l r : ℚ)
  | setSpeed (v : ℚ)
  | driveCm (v : ℚ)
  | driveInches (v : ℚ)
  | driveDegrees (v : ℚ)
  | turnDegrees (v : ℚ)
  | ledOn (i : ℕ)
  | ledOff (i : ℕ)
  | blinkerOn (i : ℕ)
  | blinkerOff (i : ℕ)
  | openEyes
  | closeEyes
  | openLeftEye
  | closeLeftEye
  | openRightEye
  | closeRightEye
  | setEyeColor (r g b : ℕ)
  | setLeftEyeColor (r g b : ℕ)
  | setRightEyeColor (r g b : ℕ)
  | initServo
deriving DecidableEq

/-- Commands that drive or halt the wheels (motion commands), as opposed to
light/eye/servo/parameter commands. -/
def ActCall.isMotion : ActCall → Bool
  | .forward | .backward | .left | .right | .stop => true
  | .steer _ _ => true
  | .driveCm _ | .driveInches _ | .driveDegrees _ | .turnDegrees _ => true
  | _ => false

/-- One statement of a straight-line choreography body: an actuator call or a
`sleep t` (`t` in seconds). -/
inductive Step where
  | act (c : ActCall)
  | wait (t : ℚ)
deriving DecidableEq

/-- The ordered actuator calls a straight-line script issues (Python executes
the statements in textual order). -/
def scriptCalls : List Step → List ActCall
  | [] => []
  | .act c :: rest => c :: scriptCalls rest
  | .wait _ :: rest => scriptCalls rest

/-- Total nominal blocking time of a script: the sum of its `sleep` durations. -/
def scriptSleep : List Step → ℚ
  | [] => 0
  | .act _ :: rest => scriptSleep rest
  | .wait t :: rest => t + scriptSleep rest

/-- One step of a choreography: a command plus an optional hold duration
(`sleep`) issued right after it. -/
structure MotionSegment where
  cmd : ActCall
  dur : Option ℚ
deriving DecidableEq

/-- The straight-line script a segment corresponds to: issue the command, then
sleep for the duration when one is present. -/
def segSteps (s : MotionSegment) : List Step :=
  match s.dur with
  | some d => [.act s.cmd, .wait d]
  | none => [.act s.cmd]

/-- Playing a choreography: execute its segments strictly in order (this is
Python's sequential execution of the transcribed body); result is the ordered
list of actuator calls issued and the total nominal blocking time. -/
def playChoreo (c : List MotionSegment) : List ActCall × ℚ :=
  (scriptCalls (c.flatMap segSteps), scriptSleep (c.flatMap segSteps))

/-- Playing a choreography against an actuator whose call raised on the
segment with 0-based index `fail` (earlier calls succeed). In the source both
long bodies are straight-line Python with no try/except, so an exception
raised by an actuator call aborts the remaining statements and propagates.
Result: the calls attempted (in order, the failing one included) and whether
an exception propagated to the caller. -/
def playFail : ℕ → List MotionSegment → List ActCall × Bool
  | _, [] => ([], false)
  | 0, s :: _ => ([s.cmd], true)
  | f + 1, s :: rest =>
      let p := playFail f rest
      (s.cmd :: p.1, p.2)

/-! ## Command registry and dispatcher (`__init__`, `executeKeyboardJob`) -/

/-- `self.keybindings` from `__init__`: key token, description, handler-name
suffix, in source (insertion) order. One description is altered to avoid an
apostrophe: the source reads "Change the eyes' color on the go". -/
def keybindings : List (String × String × String) :=
  [ ("w", "Move the GoPiGo3 forward", "forward"),
    ("s", "Move the GoPiGo3 backward", "backward"),
    ("a", "Turn the GoPiGo3 to the left", "left"),
    ("d", "Turn the GoPiGo3 to the right", "right"),
    ("<SPACE>", "Stop the GoPiGo3 from moving", "stop"),
    ("<F1>", "Drive forward for 10 centimeters", "forward10cm"),
    ("<F2>", "Drive forward for 10 inches", "forward10in"),
    ("<F3>", "Drive forward for 360 degrees (aka 1 wheel rotation)", "forwardturn"),
    ("1", "Turn ON/OFF left blinker of the GoPiGo3", "leftblinker"),
    ("2", "Turn ON/OFF right blinker of the GoPiGo3", "rightblinker"),
    ("3", "Turn ON/OFF both blinkers of the GoPiGo3", "blinkers"),
    ("5", "Do a little boogie woogie", "activatedance"),
    ("7", "Deliver altoids from kitchen to computer", "deliveraltoids"),
    ("8", "Turn ON/OFF left eye of the GoPiGo3", "lefteye"),
    ("9", "Turn ON/OFF right eye of the GoPiGo3", "righteye"),
    ("0", "Turn ON/OFF both eyes of the GoPiGo3", "eyes"),
    ("e", "Change the eyes color on the go", "eyescolor"),
    ("<ESC>", "Exit", "exit") ]

/-- `self.order_of_keys` from `__init__`. -/
def order_of_keys : List String :=
  ["w", "s", "a", "d", "<SPACE>", "<F1>", "<F2>", "<F3>", "1", "2", "3",
   "5", "7", "8", "9", "0", "e", "<ESC>"]

/-- Dictionary lookup `self.keybindings[key]`: the (description, suffix) pair,
or `none` where Python raises `KeyError`. -/
def findBinding (k : String) : Option (String × String) :=
  (keybindings.find? (fun e => e.1 = k)).map (fun e => e.2)

/-- `self.keybindings[key][KEY_FUNC_SUFFIX]` as an optional lookup. -/
def lookupKey (k : String) : Option String :=
  (findBinding k).map (fun e => e.2)

/-- The key tokens present in the registry. -/
def registryKeys : List String := keybindings.map (fun e => e.1)

/-- Which method `_gopigo3_command_<suffix>` exists on the class, and the
string classification that method returns (each handler in the source returns
a string literal, independent of state). `none` models `getattr` finding no
such attribute; in particular the empty suffix (the `KeyError` path of
`executeKeyboardJob`) resolves to no method. -/
def handlerClass : String → Option String
  | "forward" => some "moving"
  | "backward" => some "moving"
  | "left" => some "moving"
  | "right" => some "moving"
  | "stop" => some "moving"
  | "forward10cm" => some "path"
  | "forward10in" => some "path"
  | "forwardturn" => some "path"
  | "leftblinker" => some "static"
  | "rightblinker" => some "static"
  | "blinkers" => some "static"
  | "lefteye" => some "static"
  | "righteye" => some "static"
  | "eyes" => some "static"
  | "eyescolor" => some "static"
  | "activatedance" => some "static"
  | "deliveraltoids" => some "static"
  | "exit" => some "exit"
  | _ => none

/-- `executeKeyboardJob`, generic in the bindings dictionary (the method reads
`self.keybindings`, whatever it holds): on `KeyError` the suffix is the empty
string; `getattr(self, "_gopigo3_command_" + suffix, lambda: "nothing")`
falls back to a function returning "nothing" when no such method exists.
The embedding is total: no exception escapes the method. -/
def dispatchWith (bindings : String → Option String) (arg : String) : String :=
  (handlerClass ((bindings arg).getD "")).getD "nothing"

/-- `executeKeyboardJob` on the actual registry built in `__init__`. -/
def executeKeyboardJob (arg : String) : String :=
  dispatchWith lookupKey arg

/-- The error line `drawMenu` prints on `KeyError` (source text paraphrased
to avoid an apostrophe; the source message says the keys found in
`order_of_keys` do not match those in `keybindings`). -/
def menuErrorLine : String :=
  "Error: Keys found GoPiGo3WithKeyboard.order_of_keys do not match with those in GoPiGo3WithKeyboard.keybindings."

/-- One menu line of `drawMenu` (the `{:8}` padding of the format string is
not modelled). -/
def menuLine (k desc : String) : String :=
  "[key " ++ k ++ "] :  " ++ desc

/-- `drawMenu`, generic in the order list: iterate over it printing one line
per key; the try/except wraps the whole loop, so the first key missing from
`keybindings` raises `KeyError`, aborting the iteration and printing the
error line instead. Result: the printed lines, and whether the mismatch
warning was printed. -/
def drawMenuWith : List String → List String × Bool
  | [] => ([], false)
  | k :: rest =>
      match findBinding k with
      | none => ([menuErrorLine], true)
      | some e =>
          let p := drawMenuWith rest
          (menuLine k e.1 :: p.1, p.2)

/-! ## Toggle state and the static handlers -/

/-- The four boolean toggle attributes of `GoPiGo3WithKeyboard` (all start
`False`). -/
structure ToggleState where
  left_blinker_on : Bool
  right_blinker_on : Bool
  left_eye_on : Bool
  right_eye_on : Bool
deriving DecidableEq

/-- `_gopigo3_command_leftblinker`: flip `left_blinker_on`, driving LED 1. -/
def gopigo3_command_leftblinker (s : ToggleState) : ToggleState × List ActCall × String :=
  if s.left_blinker_on = false then
    ({ s with left_blinker_on := true }, [.ledOn 1], "static")
  else
    ({ s with left_blinker_on := false }, [.ledOff 1], "static")

/-- `_gopigo3_command_rightblinker`: flip `right_blinker_on`, driving LED 0. -/
def gopigo3_command_rightblinker (s : ToggleState) : ToggleState × List ActCall × String :=
  if s.right_blinker_on = false then
    ({ s with right_blinker_on := true }, [.ledOn 0], "static")
  else
    ({ s with right_blinker_on := false }, [.ledOff 0], "static")

/-- `_gopigo3_command_blinkers`: if both blinker flags are `False`, turn both
LEDs on and set both flags; in every other case turn both off and clear
both flags. -/
def gopigo3_command_blinkers (s : ToggleState) : ToggleState × List ActCall × String :=
  if s.left_blinker_on = false ∧ s.right_blinker_on = false then
    ({ s with left_blinker_on := true, right_blinker_on := true },
     [.ledOn 0, .ledOn 1], "static")
  else
    ({ s with left_blinker_on := false, right_blinker_on := false },
     [.ledOff 0, .ledOff 1], "static")

/-- `_gopigo3_command_lefteye`: flip `left_eye_on`. -/
def gopigo3_command_lefteye (s : ToggleState) : ToggleState × List ActCall × String :=
  if s.left_eye_on = false then
    ({ s with left_eye_on := true }, [.openLeftEye], "static")
  else
    ({ s with left_eye_on := false }, [.closeLeftEye], "static")

/-- `_gopigo3_command_righteye`: flip `right_eye_on`. -/
def gopigo3_command_righteye (s : ToggleState) : ToggleState × List ActCall × String :=
  if s.right_eye_on = false then
    ({ s with right_eye_on := true }, [.openRightEye], "static")
  else
    ({ s with right_eye_on := false }, [.closeRightEye], "static")

/-- `_gopigo3_command_eyes`: if both eye flags are `False`, open both eyes and
set both flags; in every other case close both eyes and clear both flags. -/
def gopigo3_command_eyes (s : ToggleState) : ToggleState × List ActCall × String :=
  if s.left_eye_on = false ∧ s.right_eye_on = false then
    ({ s with left_eye_on := true, right_eye_on := true }, [.openEyes], "static")
  else
    ({ s with left_eye_on := false, right_eye_on := false }, [.closeEyes], "static")

/-- `_gopigo3_command_eyescolor`: the three `random.randint(0, 255)` draws are
external nondeterminism, passed in as the parameters `r g b`; the body sets
the eye color and re-opens exactly the eyes whose flag is `True`, assigning
no flag. -/
def gopigo3_command_eyescolor (s : ToggleState) (r g b : ℕ) :
    ToggleState × List ActCall × String :=
  (s,
   [.setEyeColor r g b]
     ++ (if s.left_eye_on = true then [.openLeftEye] else [])
     ++ (if s.right_eye_on = true then [.openRightEye] else []),
   "static")

/-! ## The dance choreography (`_gopigo3_command_activatedance`)

Transcribed statement-by-statement; line numbers refer to the source file.
Triple-quoted string literals inside the body are no-op statements and are
omitted. -/

/-- `beat = 60/128` (line 249). -/
def beat : ℚ := 60 / 128

/-- `turn90Deg = 310` (line 251). -/
def turn90Deg : ℚ := 310

/-- `starDriveDiameter = 380` (line 328). -/
def starDriveDiameter : ℚ := 380

/-- `starDriveHypotenuse = starDriveDiameter / 2 * 1.141` (line 329); the
float literal `1.141` is modelled as the exact rational `1141/1000`. -/
def starDriveHypotenuse : ℚ := starDriveDiameter / 2 * (1141 / 1000)

/-- `starTurnSpeed135 = 243` (line 331). -/
def starTurnSpeed135 : ℚ := 243

/-- `walkSpeed = 250` (line 418). -/
def walkSpeed : ℚ := 250

/-- `figure8speed = 320` (line 513). -/
def figure8speed : ℚ := 320

/-- One half-beat pulse: `steer(100, 100); sleep(beat/2); stop(); sleep(beat/2)`
(the repeated unit of lines 292-324 and 383-415). -/
def halfPulse : List Step :=
  [.act (.steer 100 100), .wait (beat / 2), .act .stop, .wait (beat / 2)]

/-- One wiggle: `steer(100,-100); sleep(beat/2); steer(-100,100); sleep(beat/2)`
(the repeated unit of lines 427-430 and alike). -/
def shimmy : List Step :=
  [.act (.steer 100 (-100)), .wait (beat / 2),
   .act (.steer (-100) 100), .wait (beat / 2)]

/-- `n` textual repetitions of a block. -/
def repBlock (n : ℕ) (l : List Step) : List Step :=
  (List.replicate n l).flatten

/-- The `while slowCounter > 0` loop of lines 370-375, unrolled: per iteration
`set_speed(slowCounter * 25); steer(100, 100); slowCounter -= 1; sleep(beat)`
for `slowCounter = n, n-1, ..., 1`. -/
def slowLoop : ℕ → List Step
  | 0 => []
  | n + 1 =>
      [.act (.setSpeed ((n + 1 : ℕ) * 25)), .act (.steer 100 100), .wait beat]
        ++ slowLoop n

/-- The star figure, lines 332-362. -/
def starBlock : List Step :=
  [.act (.setSpeed starDriveDiameter), .act (.steer 100 100), .wait (beat * 2),
   .act (.setSpeed starTurnSpeed135), .act (.steer (-100) 100), .wait (beat * 2),
   .act (.setSpeed starDriveHypotenuse), .act (.steer 100 100), .wait (beat * 2),
   .act (.setSpeed (starTurnSpeed135 * (90 / 135))), .act (.steer (-100) 100), .wait (beat * 2),
   .act (.setSpeed starDriveHypotenuse), .act (.steer 100 100), .wait (beat * 2),
   .act (.setSpeed (starTurnSpeed135 * (90 / 135))), .act (.steer (-100) 100), .wait (beat * 2),
   .act (.setSpeed starDriveHypotenuse), .act (.steer 100 100), .wait (beat * 2),
   .act (.setSpeed starTurnSpeed135), .act (.steer (-100) 100), .wait (beat * 2),
   .act (.setSpeed starDriveDiameter), .act (.steer 100 100), .wait (beat * 2)]

/-- The eye-color flash cycle, lines 544-563 (repeated verbatim at 570-589). -/
def colorCycle : List Step :=
  [.act (.setRightEyeColor 255 0 0), .act (.setLeftEyeColor 0 0 255),
   .act .closeEyes, .act .openEyes, .wait beat,
   .act (.setRightEyeColor 0 255 0), .act (.setLeftEyeColor 255 0 0),
   .act .closeEyes, .act .openEyes, .wait beat,
   .act (.setRightEyeColor 0 0 255), .act (.setLeftEyeColor 0 255 0),
   .act .closeEyes, .act .openEyes, .wait beat,
   .act (.setRightEyeColor 255 255 255), .act (.setLeftEyeColor 255 255 255),
   .act .closeEyes, .act .openEyes, .wait beat]

/-- The full body of `_gopigo3_command_activatedance` (lines 248-598) as a
script; the method then returns "static". -/
def danceScript : List Step :=
  -- lines 250-252
  [.act (.setSpeed 300), .act .closeEyes]
  -- lines 271-279 ("beat 0")
  ++ [.act (.steer 100 100), .wait (beat * 2), .act .stop, .wait (beat * 2)]
  ++ [.act (.steer 100 100), .wait (beat * 2), .act .stop, .wait (beat * 2)]
  -- lines 285-287 (`steer(100, 13.5)`)
  ++ [.act (.setSpeed 300), .act (.steer 100 (27 / 2)), .wait (beat * 8)]
  -- lines 291-324 ("beat 16")
  ++ [.act (.setSpeed 300)]
  ++ repBlock 8 halfPulse
  -- lines 328-362 ("beat 24", the star)
  ++ starBlock
  -- lines 365-367 ("Beat 42")
  ++ [.act (.setSpeed turn90Deg), .act (.steer 100 (-100)), .wait beat]
  -- lines 369-375
  ++ [.act (.setSpeed 250)]
  ++ slowLoop 12
  -- lines 378-380 ("Beat 55")
  ++ [.act (.setSpeed turn90Deg), .act (.steer 100 (-100)), .wait beat]
  -- lines 382-415
  ++ [.act (.setSpeed 300)]
  ++ repBlock 8 halfPulse
  -- lines 419-421 ("Beat 64")
  ++ [.act (.setSpeed turn90Deg), .act (.steer 100 (-100)), .wait beat]
  -- lines 423-425
  ++ [.act (.setSpeed walkSpeed), .act .forward, .wait (beat * 2)]
  -- lines 427-430
  ++ shimmy
  -- lines 432-434
  ++ [.act (.setSpeed walkSpeed), .act .forward, .wait (beat * 2)]
  -- lines 437-440 ("Beat 70")
  ++ shimmy
  -- lines 442-444
  ++ [.act (.setSpeed turn90Deg), .act (.steer (-100) 100), .wait beat]
  -- lines 446-448
  ++ [.act (.setSpeed walkSpeed), .act .forward, .wait (beat * 2)]
  -- lines 450-453
  ++ shimmy
  -- lines 455-457
  ++ [.act (.setSpeed walkSpeed), .act .forward, .wait (beat * 2)]
  -- lines 459-462
  ++ shimmy
  -- lines 466-468 ("Beat 78")
  ++ [.act (.setSpeed turn90Deg), .act (.steer (-100) 100), .wait beat]
  -- lines 470-472
  ++ [.act (.setSpeed walkSpeed), .act .forward, .wait (beat * 1)]
  -- lines 474-476
  ++ [.act .openEyes, .act (.blinkerOn 0), .act (.blinkerOn 1)]
  -- lines 477-479
  ++ [.act (.setSpeed walkSpeed), .act .forward, .wait (beat * 1)]
  -- lines 481-484
  ++ shimmy
  -- lines 486-488
  ++ [.act (.setSpeed walkSpeed), .act .forward, .wait (beat * 2)]
  -- lines 490-493
  ++ shimmy
  -- lines 495-497
  ++ [.act (.setSpeed turn90Deg), .act (.steer 100 (-100)), .wait beat]
  -- lines 500-508 ("Beat 86")
  ++ [.act (.setSpeed walkSpeed), .act .forward, .wait (beat * 4)]
  ++ [.act (.setSpeed turn90Deg), .act (.steer 100 (-100)), .wait (beat * 1)]
  ++ [.act (.setSpeed walkSpeed), .act .forward, .wait (beat * 3)]
  -- lines 515-520 ("Beat 94", figure 8)
  ++ [.act (.setSpeed figure8speed), .act (.steer 100 20), .wait (beat * 4)]
  ++ [.act (.setSpeed figure8speed), .act (.steer 20 100), .wait (beat * 4)]
  -- lines 523-529 ("Beat 102")
  ++ [.act (.setSpeed turn90Deg), .act (.steer (-100) 100), .wait (beat * 8)]
  ++ [.act (.setSpeed turn90Deg), .act (.steer 100 (-100)), .wait (beat * 2)]
  -- lines 532-537 ("Beat 112")
  ++ [.act (.setSpeed figure8speed), .act (.steer 20 100), .wait (beat * 4)]
  ++ [.act (.setSpeed figure8speed), .act (.steer 100 20), .wait (beat * 4)]
  -- lines 540-541 ("Beat 120", no sleep after)
  ++ [.act (.setSpeed turn90Deg), .act (.steer (-100) 100)]
  -- lines 544-563
  ++ colorCycle
  -- lines 566-567 (`finishCounter = 0` is a pure assignment, no call)
  ++ [.act (.setSpeed turn90Deg), .act (.steer 100 (-100))]
  -- lines 570-589
  ++ colorCycle
  -- lines 593-595
  ++ [.act .closeEyes, .act (.blinkerOff 0), .act (.blinkerOff 1)]
  -- lines 597-598
  ++ [.act .stop, .act (.setSpeed 500)]

/-- The ordered actuator calls of a full, failure-free run of
`_gopigo3_command_activatedance`. -/
def danceCalls : List ActCall := scriptCalls danceScript

/-- The classification `_gopigo3_command_activatedance` returns (line 599). -/
def danceClassification : String := "static"

/-! ## The delivery route (`_gopigo3_command_deliveraltoids`) -/

/-- `turn90 = 84` (line 625). -/
def turn90 : ℚ := 84

/-- The ordered actuator calls of a full, failure-free run of
`_gopigo3_command_deliveraltoids` (lines 612-652), transcribed
statement-by-statement. -/
def altoidsCalls : List ActCall :=
  [.setSpeed 300,
   .initServo,
   -- waypoint 1 -> 2
   .driveInches 49, .turnDegrees turn90,
   -- waypoint 2 -> 3
   .driveInches 76, .turnDegrees (turn90 - 2),
   -- waypoint 3 -> 4
   .driveInches 40,
   .turnDegrees (turn90 * 2), .driveInches (-36),
   -- waypoint 4 -> 5
   .setSpeed 100, .driveInches (-48), .setSpeed 300, .turnDegrees (-turn90 + 2),
   -- waypoint 5 -> 6
   .driveInches 80, .turnDegrees (-turn90),
   .stop]

/-- The classification `_gopigo3_command_deliveraltoids` returns (line 652). -/
def altoidsClassification : String := "static"

/-! ## The spec's Route / WaypointLeg player

Modelled from the spec: the source hardcodes the route as straight-line
calls; the spec (section 4.4) describes it as an ordered `Route` of
`WaypointLeg`s consumed by a player. The player below follows the spec's
words; the theorem for the route claim ties it back to the transcribed
source trace `altoidsCalls`. -/

/-- A bounded-path operation of a leg. -/
inductive LegOp where
  | driveInches (v : ℚ)
  | turnDegrees (v : ℚ)
deriving DecidableEq

/-- One waypoint leg: an optional speed override, then a bounded-path call. -/
structure WaypointLeg where
  speedOverride : Option ℚ
  op : LegOp
deriving DecidableEq

/-- The actuator call a leg's operation corresponds to. -/
def legCall : LegOp → ActCall
  | .driveInches v => .driveInches v
  | .turnDegrees v => .turnDegrees v

/-- Play one leg: issue `SetSpeed` first when an override is present, then the
bounded-path call (which blocks in the actuator; no sleeps). -/
def playLeg (l : WaypointLeg) : List ActCall :=
  (match l.speedOverride with
   | some s => [.setSpeed s]
   | none => []) ++ [legCall l.op]

/-- Play a route: legs strictly in the authored order. -/
def playRoute (r : List WaypointLeg) : List ActCall :=
  r.flatMap playLeg

/-- The route `_gopigo3_command_deliveraltoids` drives, as leg data
(`turn90 = 84`, so `turn90 - 2 = 82`, `turn90 * 2 = 168`,
`-turn90 + 2 = -82`). -/
def altoidsRoute : List WaypointLeg :=
  [⟨none, .driveInches 49⟩,
   ⟨none, .turnDegrees 84⟩,
   ⟨none, .driveInches 76⟩,
   ⟨none, .turnDegrees 82⟩,
   ⟨none, .driveInches 40⟩,
   ⟨none, .turnDegrees 168⟩,
   ⟨none, .driveInches (-36)⟩,
   ⟨some 100, .driveInches (-48)⟩,
   ⟨some 300, .turnDegrees (-82)⟩,
   ⟨none, .driveInches 80⟩,
   ⟨none, .turnDegrees (-84)⟩]

/-- The three-leg route named by the route-player claim. -/
def routeExample3 : List WaypointLeg :=
  [⟨none, .driveInches 49⟩, ⟨none, .turnDegrees 84⟩, ⟨none, .driveInches 76⟩]

/-- A five-segment choreography used to exercise fail-fast playback. -/
def choreoExample5 : List MotionSegment :=
  [⟨.steer 100 100, some 1⟩,
   ⟨.stop, some 1⟩,
   ⟨.steer (-100) 100, some 1⟩,
   ⟨.stop, some 1⟩,
   ⟨.setSpeed 300, none⟩]

/-- The three-segment choreography named by the sequencer claim. -/
def choreoExample3 : List MotionSegment :=
  [⟨.steer 100 100, some 1⟩, ⟨.stop, some 1⟩, ⟨.setSpeed 300, none⟩]

/-- The display-order list with the registered key "w" removed (all its
entries are still valid registry keys). -/
def orderMissingW : List String :=
  ["s", "a", "d", "<SPACE>", "<F1>", "<F2>", "<F3>", "1", "2", "3",
   "5", "7", "8", "9", "0", "e", "<ESC>"]

/-- A display-order list containing a key token absent from the registry. -/
def orderWithUnknown : List String := order_of_keys ++ ["q"]

/-! ## Helper lemmas -/

theorem scriptCalls_append (a b : List Step) :
    scriptCalls (a ++ b) = scriptCalls a ++ scriptCalls b := by
  induction a with
  | nil => rfl
  | cons st rest ih => cases st <;> simp [scriptCalls, ih]

theorem scriptSleep_append (a b : List Step) :
    scriptSleep (a ++ b) = scriptSleep a + scriptSleep b := by
  induction a with
  | nil => simp [scriptSleep]
  | cons st rest ih =>
      cases st with
      | act c => simp [scriptSleep, ih]
      | wait t => simp [scriptSleep, ih]; ring

theorem scriptCalls_segSteps (s : MotionSegment) :
    scriptCalls (segSteps s) = [s.cmd] := by
  cases h : s.dur <;> simp [segSteps, h, scriptCalls]

theorem scriptSleep_segSteps (s : MotionSegment) :
    scriptSleep (segSteps s) = s.dur.getD 0 := by
  cases h : s.dur <;> simp [segSteps, h, scriptSleep]

theorem playChoreo_calls (c : List MotionSegment) :
    (playChoreo c).1 = c.map MotionSegment.cmd := by
  induction c with
  | nil => rfl
  | cons s rest ih =>
      simp only [playChoreo, List.flatMap_cons, scriptCalls_append,
        scriptCalls_segSteps, List.map_cons] at *
      simp [ih]

theorem playChoreo_sleep (c : List MotionSegment) :
    (playChoreo c).2 = (c.map (fun s => s.dur.getD 0)).sum := by
  induction c with
  | nil => simp [playChoreo, scriptSleep]
  | cons s rest ih =>
      simp only [playChoreo, List.flatMap_cons, scriptSleep_append,
        scriptSleep_segSteps, List.map_cons, List.sum_cons] at *
      simp [ih]

/-! ## Claim theorems -/

/-- C1: for every key token not in the registry, and for any registered key
whose handler suffix names no `_gopigo3_command_` method, `executeKeyboardJob`
returns the "nothing" classification; the embedding is total, so no error is
raised on either path. -/
theorem dispatch_unknown_or_unresolved_noop (bindings : String → Option String)
    (arg : String) :
    (bindings arg = none → dispatchWith bindings arg = "nothing") ∧
    (∀ sfx, bindings arg = some sfx → handlerClass sfx = none →
      dispatchWith bindings arg = "nothing") := by
  constructor
  · intro h
    unfold dispatchWith
    rw [h]
    rfl
  · intro sfx h hc
    unfold dispatchWith
    rw [h]
    show (handlerClass sfx).getD "nothing" = "nothing"
    rw [hc]
    rfl

/-- Witness for C1: the unregistered key "z" dispatches to "nothing", and a
registry binding whose suffix "bogus" resolves to no method dispatches to
"nothing". -/
theorem dispatch_unknown_or_unresolved_noop_witness :
    dispatchWith lookupKey "z" = "nothing" ∧
    dispatchWith (fun _ => some "bogus") "w" = "nothing" :=
  ⟨(dispatch_unknown_or_unresolved_noop lookupKey "z").1 (by decide),
   (dispatch_unknown_or_unresolved_noop (fun _ => some "bogus") "w").2
     "bogus" rfl rfl⟩

/-- C2: from `(false, false)` the combined toggles turn both outputs on and
set both flags true; from every other flag state (both true or mixed) they
turn both outputs off and clear both flags, leaving the unrelated pair of
flags untouched. -/
theorem combined_toggles_mixed_state (lb rb le re : Bool) :
    (gopigo3_command_blinkers ⟨lb, rb, le, re⟩ =
      if lb = false ∧ rb = false then
        (⟨true, true, le, re⟩, [.ledOn 0, .ledOn 1], "static")
      else
        (⟨false, false, le, re⟩, [.ledOff 0, .ledOff 1], "static")) ∧
    (gopigo3_command_eyes ⟨lb, rb, le, re⟩ =
      if le = false ∧ re = false then
        (⟨lb, rb, true, true⟩, [.openEyes], "static")
      else
        (⟨lb, rb, false, false⟩, [.closeEyes], "static")) := by
  cases lb <;> cases rb <;> cases le <;> cases re <;> decide

/-- C3: playing a choreography against an actuator that fails on the segment
with 0-based index `k` attempts exactly the first `k + 1` commands in order
(`k` successes plus the failing one), never reaches the later segments, and
propagates the failure to the caller. -/
theorem choreo_fail_fast (c : List MotionSegment) (k : ℕ) (h : k < c.length) :
    playFail k c = ((c.map MotionSegment.cmd).take (k + 1), true) ∧
    (playFail k c).1.length = k + 1 := by
  have main : playFail k c = ((c.map MotionSegment.cmd).take (k + 1), true) := by
    induction c generalizing k with
    | nil => simp at h
    | cons s rest ih =>
        cases k with
        | zero => simp [playFail]
        | succ k =>
            have hk : k < rest.length := by simpa using h
            simp [playFail, ih k hk]
  refine ⟨main, ?_⟩
  rw [main]
  simp [List.length_take]
  omega

/-- Witness for C3: a failure injected on the second segment of the concrete
five-segment choreography aborts after exactly two attempted calls. -/
theorem choreo_fail_fast_witness :
    playFail 1 choreoExample5 = ((choreoExample5.map MotionSegment.cmd).take 2, true) ∧
    (playFail 1 choreoExample5).1.length = 2 :=
  choreo_fail_fast choreoExample5 1 (by decide)

/-- C4: the route player issues, for the three-leg route
`[DriveDistanceInches 49, TurnDegrees 84, DriveDistanceInches 76]`, exactly
those three bounded-path calls in that order; a leg carrying a speed override
issues `SetSpeed` with that value immediately before its bounded-path call;
and the transcribed call trace of `_gopigo3_command_deliveraltoids` is
exactly the player run on the source's route data, bracketed by the method's
initial `set_speed(300)`/`init_servo()` and final `stop()`. -/
theorem route_player_order_and_override :
    playRoute routeExample3 =
      [.driveInches 49, .turnDegrees 84, .driveInches 76] ∧
    (∀ l : WaypointLeg, ∀ s : ℚ, l.speedOverride = some s →
      playLeg l = [.setSpeed s, legCall l.op]) ∧
    altoidsCalls = [.setSpeed 300, .initServo] ++ playRoute altoidsRoute ++ [.stop] := by
  refine ⟨by decide, ?_, ?_⟩
  · intro l s h
    obtain ⟨so, op⟩ := l
    simp only at h
    simp [playLeg, h]
  · simp only [altoidsCalls, altoidsRoute, playRoute, playLeg, legCall,
      turn90, List.flatMap_cons, List.flatMap_nil]
    norm_num

/-- Witness for C4: the override leg of the altoids route (speed 100 before
`drive_inches(-48)`) issues its `SetSpeed` immediately before the drive. -/
theorem route_player_order_and_override_witness :
    playLeg ⟨some 100, .driveInches (-48)⟩ =
      [.setSpeed 100, .driveInches (-48)] :=
  route_player_order_and_override.2.1 ⟨some 100, .driveInches (-48)⟩ 100 rfl

/-- C5: the sequencer issues every segment's command strictly in the authored
order (one call per segment, no reordering) and its total nominal blocking
time is the sum of the present durations; on the concrete choreography
`[(Steer(100,100), 1s), (Stop, 1s), (SetSpeed 300, none)]` it issues exactly
those three calls in order with total blocking time 2 seconds. -/
theorem sequencer_order_and_blocking :
    (∀ c : List MotionSegment,
      (playChoreo c).1 = c.map MotionSegment.cmd ∧
      (playChoreo c).2 = (c.map (fun s => s.dur.getD 0)).sum) ∧
    playChoreo choreoExample3 = ([.steer 100 100, .stop, .setSpeed 300], 2) := by
  refine ⟨fun c => ⟨playChoreo_calls c, playChoreo_sleep c⟩, ?_⟩
  simp only [playChoreo, choreoExample3, segSteps, List.flatMap_cons,
    List.flatMap_nil, List.append_nil, List.cons_append, List.nil_append,
    scriptCalls, scriptSleep]
  norm_num

/-- C6: the random-eye-color handler leaves all four toggle flags exactly as
they were, always issues the color command first, and issues an open command
for an eye exactly when that eye's flag is true — for every starting flag
state and every drawn color. -/
theorem eyescolor_preserves_flags (lb rb le re : Bool) (r g b : ℕ) :
    (gopigo3_command_eyescolor ⟨lb, rb, le, re⟩ r g b).1 = ⟨lb, rb, le, re⟩ ∧
    ((gopigo3_command_eyescolor ⟨lb, rb, le, re⟩ r g b).2.1.head? =
      some (.setEyeColor r g b)) ∧
    (ActCall.openLeftEye ∈ (gopigo3_command_eyescolor ⟨lb, rb, le, re⟩ r g b).2.1 ↔
      le = true) ∧
    (ActCall.openRightEye ∈ (gopigo3_command_eyescolor ⟨lb, rb, le, re⟩ r g b).2.1 ↔
      re = true) ∧
    (gopigo3_command_eyescolor ⟨lb, rb, le, re⟩ r g b).2.2 = "static" := by
  cases le <;> cases re <;> simp [gopigo3_command_eyescolor]

/-- C7: each of the four individual toggle handlers flips exactly its own
flag, so invoking the same handler twice returns the flag state to its
original value, while a single invocation always changes it — pure
alternation, not idempotent set semantics. -/
theorem individual_toggles_alternate (lb rb le re : Bool) :
    ((gopigo3_command_leftblinker
        ((gopigo3_command_leftblinker ⟨lb, rb, le, re⟩).1)).1 = ⟨lb, rb, le, re⟩ ∧
      (gopigo3_command_leftblinker ⟨lb, rb, le, re⟩).1 = ⟨!lb, rb, le, re⟩) ∧
    ((gopigo3_command_rightblinker
        ((gopigo3_command_rightblinker ⟨lb, rb, le, re⟩).1)).1 = ⟨lb, rb, le, re⟩ ∧
      (gopigo3_command_rightblinker ⟨lb, rb, le, re⟩).1 = ⟨lb, !rb, le, re⟩) ∧
    ((gopigo3_command_lefteye
        ((gopigo3_command_lefteye ⟨lb, rb, le, re⟩).1)).1 = ⟨lb, rb, le, re⟩ ∧
      (gopigo3_command_lefteye ⟨lb, rb, le, re⟩).1 = ⟨lb, rb, !le, re⟩) ∧
    ((gopigo3_command_righteye
        ((gopigo3_command_righteye ⟨lb, rb, le, re⟩).1)).1 = ⟨lb, rb, le, re⟩ ∧
      (gopigo3_command_righteye ⟨lb, rb, le, re⟩).1 = ⟨lb, rb, le, !re⟩) := by
  cases lb <;> cases rb <;> cases le <;> cases re <;> decide

/-- C8: every one of the 18 registered key tokens dispatches to an existing
handler and yields one of the classifications "moving", "path", "static" or
"exit" — never "nothing". -/
theorem registered_keys_classified (k : String) (h : k ∈ registryKeys) :
    executeKeyboardJob k ≠ "nothing" ∧
    (executeKeyboardJob k = "moving" ∨ executeKeyboardJob k = "path" ∨
     executeKeyboardJob k = "static" ∨ executeKeyboardJob k = "exit") := by
  have hall : ∀ x ∈ registryKeys,
      executeKeyboardJob x ≠ "nothing" ∧
      (executeKeyboardJob x = "moving" ∨ executeKeyboardJob x = "path" ∨
       executeKeyboardJob x = "static" ∨ executeKeyboardJob x = "exit") := by
    decide
  exact hall k h

/-- Witness for C8: the registered key "w" dispatches to "moving". -/
theorem registered_keys_classified_witness :
    executeKeyboardJob "w" ≠ "nothing" ∧
    (executeKeyboardJob "w" = "moving" ∨ executeKeyboardJob "w" = "path" ∨
     executeKeyboardJob "w" = "static" ∨ executeKeyboardJob "w" = "exit") :=
  registered_keys_classified "w" (by decide)

/-- C9 counterexample: the display-order list missing the registered key "w"
(all of whose entries are valid) makes `drawMenu` emit no warning at all, so
a display-order list missing one registered key does not produce the
configuration warning the claim asserts. -/
theorem menu_missing_key_no_warning :
    (drawMenuWith orderMissingW).2 = false ∧
    lookupKey "w" = some "forward" ∧
    "w" ∉ orderMissingW := by
  decide

/-- C9 amended: `drawMenu` emits its mismatch warning exactly when the order
list contains a key absent from the registry (the only case that raises
`KeyError`); a list merely missing a registered key emits no warning and
silently omits that key; in both cases dispatch is unaffected and still
resolves every registered key. -/
theorem menu_warning_iff_unknown_key :
    (∀ order : List String,
      (drawMenuWith order).2 = true ↔ ∃ k ∈ order, findBinding k = none) ∧
    (drawMenuWith orderWithUnknown).2 = true ∧
    (drawMenuWith orderMissingW).2 = false ∧
    (∀ k, k ∈ registryKeys → executeKeyboardJob k ≠ "nothing") := by
  refine ⟨?_, by decide, by decide, by decide⟩
  intro order
  induction order with
  | nil => simp [drawMenuWith]
  | cons k rest ih =>
      cases hf : findBinding k with
      | none => simp [drawMenuWith, hf]
      | some e => simp [drawMenuWith, hf, ih]

/-- Witness for C9 amended: the warning-characterisation instantiated at the
order list missing "w", and dispatch of the registered key "3" still
resolving. -/
theorem menu_warning_iff_unknown_key_witness :
    ((drawMenuWith orderMissingW).2 = true ↔
      ∃ k ∈ orderMissingW, findBinding k = none) ∧
    executeKeyboardJob "3" ≠ "nothing" :=
  ⟨menu_warning_iff_unknown_key.1 orderMissingW,
   menu_warning_iff_unknown_key.2.2.2 "3" (by decide)⟩

/-- C10: on a failure-free run, the last motion command issued by the dance
choreography and by the delivery route is `stop` (the robot is left
stationary; the dance's trailing `set_speed(500)` is a parameter, not a
motion command), and both handlers return the "static" classification, which
is also what dispatching their keys "5" and "7" yields. -/
theorem routines_end_stopped_and_static :
    (danceCalls.filter ActCall.isMotion).getLast? = some .stop ∧
    (altoidsCalls.filter ActCall.isMotion).getLast? = some .stop ∧
    danceClassification = "static" ∧
    altoidsClassification = "static" ∧
    executeKeyboardJob "5" = "static" ∧
    executeKeyboardJob "7" = "static" := by
  decide
